import Mathlib

/-!
Verification of the gain-change synchronization protocol and the sample
callbacks of `single_tuner_gain_changes.c` and `single_tuner_recorder.c`
(repository fventuri/single-tuner-experiments), as a shallow embedding.

The shared flag `rx_context.gain_reduction_changed` is written by the
asynchronous callback and read by the main loop; each successive read of the
flag is modelled by a trace `f : Nat → Bool` (`f i` is the value returned by
the i-th read of the flag during and just after one poll loop, `true`
standing for a nonzero C int).
-/

/-- Constant `UpdateTimeout` from single_tuner_gain_changes.c line 24:
wait up to 10k x usleep() for updates. -/
def UpdateTimeout : Nat := 10000

/-- The confirmation poll loop of single_tuner_gain_changes.c lines 459-468:

    int elapsed;
    int prev_gain_reduction_changed = -1;
    for (elapsed = 0; elapsed < UpdateTimeout; elapsed++) {
        int curr_gain_reduction_changed = rx_context.gain_reduction_changed;
        if (prev_gain_reduction_changed == 0 && curr_gain_reduction_changed != 0) break;
        prev_gain_reduction_changed = curr_gain_reduction_changed;
        usleep(1);
    }

`fuel` is the number of loop iterations still allowed (initially
`UpdateTimeout`), `elapsed` the current value of the C variable `elapsed`,
`prev` the value of `prev_gain_reduction_changed` (`none` models the initial
-1, `some b` a stored read).  The result is the final value of `elapsed`
paired with `true` iff the loop exited via `break` (Confirmed). -/
def pollLoopFrom (f : Nat → Bool) : Nat → Nat → Option Bool → Nat × Bool
  | 0, elapsed, _ => (elapsed, false)
  | fuel + 1, elapsed, prev =>
    let curr := f elapsed
    if prev = some false ∧ curr = true then (elapsed, true)
    else pollLoopFrom f fuel (elapsed + 1) (some curr)

/-- The whole poll loop on a read trace `f`: start at `elapsed = 0` with
`prev_gain_reduction_changed = -1` and at most `UpdateTimeout` iterations. -/
def pollLoop (f : Nat → Bool) : Nat × Bool :=
  pollLoopFrom f UpdateTimeout 0 none

/-- Index of the read of `rx_context.gain_reduction_changed` performed by
line 472 (the post-loop timeout check): the loop itself consumed reads
`0 .. elapsed` when it broke at `elapsed`, and reads `0 .. elapsed - 1` when
it timed out with `elapsed = UpdateTimeout`. -/
def postReadIndex (r : Nat × Bool) : Nat :=
  if r.2 then r.1 + 1 else r.1

/-- Line 472-474: `if (rx_context.gain_reduction_changed == 0)` print
"gain change update timeout".  True iff the warning is printed. -/
def timeoutWarningLogged (f : Nat → Bool) : Bool :=
  f (postReadIndex (pollLoop f)) = false

/-- The invariant linking `prev` to the read trace: either the C variable
still holds its initial -1, or it holds the previous read. -/
def PrevInv (f : Nat → Bool) (elapsed : Nat) (prev : Option Bool) : Prop :=
  prev = none ∨ (1 ≤ elapsed ∧ prev = some (f (elapsed - 1)))

theorem pollLoopFrom_timeout (f : Nat → Bool) :
    ∀ fuel elapsed prev k, pollLoopFrom f fuel elapsed prev = (k, false) →
      k = elapsed + fuel := by
  intro fuel
  induction fuel with
  | zero =>
    intro elapsed prev k h
    rw [pollLoopFrom] at h
    injection h with h1 _
    omega
  | succ n ih =>
    intro elapsed prev k h
    rw [pollLoopFrom] at h
    by_cases hb : prev = some false ∧ f elapsed = true
    · rw [if_pos hb] at h; simp at h
    · rw [if_neg hb] at h
      have := ih (elapsed + 1) (some (f elapsed)) k h
      omega

theorem pollLoopFrom_no_trans (f : Nat → Bool)
    (hf : ∀ i, ¬(f i = false ∧ f (i + 1) = true)) :
    ∀ fuel elapsed prev, PrevInv f elapsed prev →
      pollLoopFrom f fuel elapsed prev = (elapsed + fuel, false) := by
  intro fuel
  induction fuel with
  | zero => intro elapsed prev _; simp [pollLoopFrom]
  | succ n ih =>
    intro elapsed prev hinv
    rw [pollLoopFrom]
    have hnb : ¬(prev = some false ∧ f elapsed = true) := by
      rintro ⟨hp, hc⟩
      subst hp
      rcases hinv with h | ⟨he, hp'⟩
      · simp at h
      · have hfe : f (elapsed - 1) = false := by simpa using hp'.symm
        have h1 : elapsed - 1 + 1 = elapsed := by omega
        exact hf (elapsed - 1) ⟨hfe, by simpa [h1] using hc⟩
    rw [if_neg hnb]
    have hinv' : PrevInv f (elapsed + 1) (some (f elapsed)) := by
      right; exact ⟨by omega, by simp⟩
    rw [ih (elapsed + 1) (some (f elapsed)) hinv']
    congr 1
    omega

theorem pollLoopFrom_confirmed (f : Nat → Bool) :
    ∀ fuel elapsed prev k, PrevInv f elapsed prev →
      pollLoopFrom f fuel elapsed prev = (k, true) →
      1 ≤ k ∧ f (k - 1) = false ∧ f k = true := by
  intro fuel
  induction fuel with
  | zero => intro elapsed prev k _ h; simp [pollLoopFrom] at h
  | succ n ih =>
    intro elapsed prev k hinv h
    rw [pollLoopFrom] at h
    by_cases hb : prev = some false ∧ f elapsed = true
    · rw [if_pos hb] at h
      obtain ⟨hp, hc⟩ := hb
      injection h with h1 _
      subst h1
      subst hp
      rcases hinv with hn | ⟨he, hp'⟩
      · simp at hn
      · refine ⟨he, ?_, hc⟩
        simpa using hp'.symm
    · rw [if_neg hb] at h
      exact ih (elapsed + 1) (some (f elapsed)) k
        (Or.inr ⟨by omega, by simp⟩) h

theorem pollLoop_no_trans (f : Nat → Bool)
    (hf : ∀ i, ¬(f i = false ∧ f (i + 1) = true)) :
    pollLoop f = (UpdateTimeout, false) := by
  have := pollLoopFrom_no_trans f hf UpdateTimeout 0 none (Or.inl rfl)
  simpa [pollLoop] using this

theorem pollLoop_timeout_elapsed (f : Nat → Bool) (k : Nat)
    (h : pollLoop f = (k, false)) : k = UpdateTimeout := by
  have := pollLoopFrom_timeout f UpdateTimeout 0 none k h
  omega

theorem pollLoop_confirmed (f : Nat → Bool) (k : Nat)
    (h : pollLoop f = (k, true)) :
    1 ≤ k ∧ f (k - 1) = false ∧ f k = true :=
  pollLoopFrom_confirmed f UpdateTimeout 0 none k (Or.inl rfl) h

theorem pollLoop_const_true_then_true (f : Nat → Bool)
    (h0 : f 0 = true) (hmono : ∀ i, f i = true → f (i + 1) = true) :
    ∀ i, f i = true := by
  intro i
  induction i with
  | zero => exact h0
  | succ n ih => exact hmono n ih

/-- C1: the confirmation poll loop terminates early (Confirmed) only
when, on two successive reads of the flag, it observes `previous == false`
immediately followed by `current == true`; and for every read trace with no
false-to-true transition between successive reads (in particular one where
the flag is stuck true from loop entry on), the loop runs to its iteration
bound `UpdateTimeout` and never breaks early. -/
theorem C1_poll_loop_edge_detection (f : Nat → Bool) :
    (∀ k, pollLoop f = (k, true) →
      1 ≤ k ∧ f (k - 1) = false ∧ f k = true) ∧
    ((∀ i, ¬(f i = false ∧ f (i + 1) = true)) →
      pollLoop f = (UpdateTimeout, false)) :=
  ⟨fun k h => pollLoop_confirmed f k h, fun hf => pollLoop_no_trans f hf⟩

/-- Witness for C1 at the concrete trace that always reads `true`:
the hypothesis (no false-to-true transition) holds, and the loop indeed
reaches its bound without confirming. -/
theorem C1_witness :
    (∀ i, ¬((fun _ => true : Nat → Bool) i = false ∧
            (fun _ => true : Nat → Bool) (i + 1) = true)) ∧
    pollLoop (fun _ => true) = (UpdateTimeout, false) :=
  ⟨by intro i; simp,
   (C1_poll_loop_edge_detection (fun _ => true)).2 (by intro i; simp)⟩

/-- Selection of the pending gain reduction written at line 441:
`gRdBs[ngc % ngRdBs]`.  `gains` is the gRdBs array, indexing is modulo its
length; the default 0 of `getD` is never reached for a non-empty list. -/
def selGain (gains : List Int) (ngc : Nat) : Int :=
  gains.getD (ngc % gains.length) 0

/-- Selection of the pending LNA state written at line 442:
`LNAstates[ngc % nLNAstates]`. -/
def selLNA (lnas : List Int) (ngc : Nat) : Int :=
  lnas.getD (ngc % lnas.length) 0

/-- Observable steps of one iteration of the gain-change loop of `main`
(lines 439-475), in program order:
`setParams` models the writes to `gain.gRdB` / `gain.LNAstate`
(lines 441-442), `resetFlag` the write `rx_context.gain_reduction_changed = 0`
(line 443), `update` the call `sdrplay_api_Update(.., Update_Tuner_Gr, ..)`
(line 444), `pollDone` the exit of the confirmation poll loop with its final
`elapsed` and whether it broke early, `warnCheck` the post-loop timeout
check of line 472 with whether the warning was printed. -/
inductive Event where
  | setParams (ngc : Nat) (gRdB : Int) (LNAstate : Int)
  | resetFlag (ngc : Nat)
  | update (ngc : Nat)
  | pollDone (ngc : Nat) (elapsed : Nat) (confirmed : Bool)
  | warnCheck (ngc : Nat) (logged : Bool)
  deriving DecidableEq

/-- One iteration of the loop body (lines 440-474) for change index `ngc`,
with `f` the trace of flag reads performed during this iteration. -/
def cycleEvents (gains lnas : List Int) (f : Nat → Bool) (ngc : Nat) :
    List Event :=
  [Event.setParams ngc (selGain gains ngc) (selLNA lnas ngc),
   Event.resetFlag ngc,
   Event.update ngc,
   Event.pollDone ngc (pollLoop f).1 (pollLoop f).2,
   Event.warnCheck ngc (timeoutWarningLogged f)]

/-- The gain-change loop starting at change index `start` and running `cnt`
iterations; `flags ngc` is the trace of flag reads of iteration `ngc`. -/
def loopFrom (gains lnas : List Int) (flags : Nat → Nat → Bool) :
    Nat → Nat → List Event
  | _, 0 => []
  | start, cnt + 1 =>
    cycleEvents gains lnas (flags start) start ++
      loopFrom gains lnas flags (start + 1) cnt

/-- The whole gain-change loop of `main`, line 439:
`for (unsigned int ngc = 1; ngc < num_gain_changes; ngc++)` — change indices
1 through `num_gain_changes - 1`. -/
def controlLoop (gains lnas : List Int) (flags : Nat → Nat → Bool)
    (num_gain_changes : Nat) : List Event :=
  loopFrom gains lnas flags 1 (num_gain_changes - 1)

/-- Change indices of the issued tuner gain-reduction update requests, in
trace order. -/
def updatesOf (tr : List Event) : List Nat :=
  tr.filterMap fun e => match e with
    | Event.update m => some m
    | _ => none

/-- Change indices of the flag resets, in trace order. -/
def resetsOf (tr : List Event) : List Nat :=
  tr.filterMap fun e => match e with
    | Event.resetFlag m => some m
    | _ => none

theorem updatesOf_append (a b : List Event) :
    updatesOf (a ++ b) = updatesOf a ++ updatesOf b :=
  List.filterMap_append a b _

theorem resetsOf_append (a b : List Event) :
    resetsOf (a ++ b) = resetsOf a ++ resetsOf b :=
  List.filterMap_append a b _

theorem updatesOf_loopFrom (gains lnas : List Int) (flags : Nat → Nat → Bool) :
    ∀ cnt start, updatesOf (loopFrom gains lnas flags start cnt) =
      List.range' start cnt := by
  intro cnt
  induction cnt with
  | zero => intro start; rfl
  | succ n ih =>
    intro start
    rw [loopFrom, updatesOf_append, ih (start + 1), List.range'_succ]
    rfl

theorem resetsOf_loopFrom (gains lnas : List Int) (flags : Nat → Nat → Bool) :
    ∀ cnt start, resetsOf (loopFrom gains lnas flags start cnt) =
      List.range' start cnt := by
  intro cnt
  induction cnt with
  | zero => intro start; rfl
  | succ n ih =>
    intro start
    rw [loopFrom, resetsOf_append, ih (start + 1), List.range'_succ]
    rfl

theorem get?_cons5 (a b c d e : Event) (l : List Event) (k : Nat) :
    (a :: b :: c :: d :: e :: l).get? (k + 5) = l.get? k := by
  simp [List.get?_cons_succ]

theorem loopFrom_get_block (gains lnas : List Int) (flags : Nat → Nat → Bool) :
    ∀ cnt start m, start ≤ m → m < start + cnt →
      ((loopFrom gains lnas flags start cnt).get? (5 * (m - start)) =
        some (Event.setParams m (selGain gains m) (selLNA lnas m)) ∧
       (loopFrom gains lnas flags start cnt).get? (5 * (m - start) + 1) =
        some (Event.resetFlag m) ∧
       (loopFrom gains lnas flags start cnt).get? (5 * (m - start) + 2) =
        some (Event.update m) ∧
       (loopFrom gains lnas flags start cnt).get? (5 * (m - start) + 3) =
        some (Event.pollDone m (pollLoop (flags m)).1 (pollLoop (flags m)).2) ∧
       (loopFrom gains lnas flags start cnt).get? (5 * (m - start) + 4) =
        some (Event.warnCheck m (timeoutWarningLogged (flags m)))) := by
  intro cnt
  induction cnt with
  | zero => intro start m h1 h2; omega
  | succ n ih =>
    intro start m h1 h2
    rw [loopFrom]
    by_cases hm : m = start
    · subst hm
      simp [cycleEvents, Nat.sub_self]
    · have hlt : start + 1 ≤ m := by omega
      have hub : m < start + 1 + n := by omega
      obtain ⟨g1, g2, g3, g4, g5⟩ := ih (start + 1) m hlt hub
      simp only [cycleEvents, List.cons_append, List.nil_append]
      refine ⟨?_, ?_, ?_, ?_, ?_⟩
      · rw [show 5 * (m - start) = 5 * (m - (start + 1)) + 5 by omega,
          get?_cons5]
        exact g1
      · rw [show 5 * (m - start) + 1 = 5 * (m - (start + 1)) + 1 + 5 by omega,
          get?_cons5]
        exact g2
      · rw [show 5 * (m - start) + 2 = 5 * (m - (start + 1)) + 2 + 5 by omega,
          get?_cons5]
        exact g3
      · rw [show 5 * (m - start) + 3 = 5 * (m - (start + 1)) + 3 + 5 by omega,
          get?_cons5]
        exact g4
      · rw [show 5 * (m - start) + 4 = 5 * (m - (start + 1)) + 4 + 5 by omega,
          get?_cons5]
        exact g5

theorem loopFrom_update_pos (gains lnas : List Int) (flags : Nat → Nat → Bool) :
    ∀ cnt start i m,
      (loopFrom gains lnas flags start cnt).get? i = some (Event.update m) →
      start ≤ m ∧ m < start + cnt ∧ i = 5 * (m - start) + 2 := by
  intro cnt
  induction cnt with
  | zero => intro start i m h; simp [loopFrom] at h
  | succ n ih =>
    intro start i m h
    rw [loopFrom] at h
    simp only [cycleEvents, List.cons_append, List.nil_append] at h
    rcases i with _ | _ | _ | _ | _ | i
    · simp at h
    · simp at h
    · rw [List.get?_cons_succ, List.get?_cons_succ, List.get?_cons_zero] at h
      have hm : m = start := by
        injection h with h'
        injection h' with h''
        exact h''.symm
      subst hm
      refine ⟨le_refl m, by omega, by omega⟩
    · simp at h
    · simp at h
    · rw [show i + 1 + 1 + 1 + 1 + 1 = i + 5 by omega, get?_cons5] at h
      obtain ⟨hm1, hm2, hm3⟩ := ih (start + 1) i m h
      exact ⟨by omega, by omega, by omega⟩

/-- C4 (amended: the loop of line 439 runs change indices 1 through
`num_gain_changes - 1`, so it issues exactly `num_gain_changes - 1` update
requests, not `num_gain_changes`): for every configured count N the control
loop issues the updates for change indices 1 .. N-1 exactly once each and in
order, each update request is immediately preceded in the trace by the reset
of the NotificationFlag for the same change index, there are exactly as many
resets (one per update), and the updates are strictly sequential: the update
for a later change index only appears after the poll loop of every earlier
one has completed (its `pollDone` event lies strictly between the two update
events). -/
theorem C4_control_loop_sequencing (gains lnas : List Int)
    (flags : Nat → Nat → Bool) (N : Nat) :
    updatesOf (controlLoop gains lnas flags N) = List.range' 1 (N - 1) ∧
    resetsOf (controlLoop gains lnas flags N) = List.range' 1 (N - 1) ∧
    (∀ i m, (controlLoop gains lnas flags N).get? i =
        some (Event.update m) →
      1 ≤ i ∧ (controlLoop gains lnas flags N).get? (i - 1) =
        some (Event.resetFlag m)) ∧
    (∀ i j m m', (controlLoop gains lnas flags N).get? i =
        some (Event.update m) →
      (controlLoop gains lnas flags N).get? j = some (Event.update m') →
      m < m' →
      ∃ k e c, i < k ∧ k < j ∧
        (controlLoop gains lnas flags N).get? k =
          some (Event.pollDone m e c)) := by
  refine ⟨updatesOf_loopFrom gains lnas flags (N - 1) 1,
    resetsOf_loopFrom gains lnas flags (N - 1) 1, ?_, ?_⟩
  · intro i m h
    obtain ⟨hm1, hm2, hi⟩ :=
      loopFrom_update_pos gains lnas flags (N - 1) 1 i m h
    obtain ⟨_, hr, _, _, _⟩ :=
      loopFrom_get_block gains lnas flags (N - 1) 1 m hm1 hm2
    refine ⟨by omega, ?_⟩
    rw [show i - 1 = 5 * (m - 1) + 1 by omega]
    exact hr
  · intro i j m m' hi hj hmm
    obtain ⟨hm1, hm2, hie⟩ :=
      loopFrom_update_pos gains lnas flags (N - 1) 1 i m hi
    obtain ⟨hn1, hn2, hje⟩ :=
      loopFrom_update_pos gains lnas flags (N - 1) 1 j m' hj
    obtain ⟨_, _, _, hp, _⟩ :=
      loopFrom_get_block gains lnas flags (N - 1) 1 m hm1 hm2
    exact ⟨5 * (m - 1) + 3, (pollLoop (flags m)).1, (pollLoop (flags m)).2,
      by omega, by omega, hp⟩

/-- Counterexample to C4 as stated: with configured change count
`num_gain_changes = 2` the loop `for (ngc = 1; ngc < num_gain_changes; ngc++)`
issues exactly one update request, not two. -/
theorem C4_counterexample :
    (updatesOf (controlLoop [40] [0] (fun _ _ => false) 2)).length = 1 ∧
    (updatesOf (controlLoop [40] [0] (fun _ _ => false) 2)).length ≠ 2 := by
  have h := updatesOf_loopFrom [40] [0] (fun _ _ => false) 1 1
  rw [controlLoop]
  norm_num [h]

/-- Witness for C4 at a concrete instance: with count 3 the loop issues
exactly the updates for change indices 1 and 2, in order. -/
theorem C4_witness :
    updatesOf (controlLoop [40] [0] (fun _ _ => false) 3) = [1, 2] := by
  have h := (C4_control_loop_sequencing [40] [0] (fun _ _ => false) 3).1
  rw [h]
  rfl

/-- C2 (amended: the timeout warning of line 472 is printed only when the
flag reads zero after the loop, not on every timed-out poll; when the loop
reaches its bound and the post-loop read of the flag is zero, the warning is
printed): if the poll loop of change index m exits without confirming, its
final `elapsed` equals the bound `UpdateTimeout` (exactly 10000 iterations);
if moreover the post-loop read of the flag is zero, the timeout warning is
logged; and the loop proceeds to the remaining change indices regardless —
every change index 1 .. N-1 is updated exactly once, with no retry and no
abort. -/
theorem C2_timeout_nonfatal (gains lnas : List Int)
    (flags : Nat → Nat → Bool) (N m : Nat) (h1 : 1 ≤ m) (h2 : m < N)
    (ht : (pollLoop (flags m)).2 = false)
    (hz : flags m (postReadIndex (pollLoop (flags m))) = false) :
    (pollLoop (flags m)).1 = UpdateTimeout ∧
    (controlLoop gains lnas flags N).get? (5 * (m - 1) + 4) =
      some (Event.warnCheck m true) ∧
    updatesOf (controlLoop gains lnas flags N) = List.range' 1 (N - 1) := by
  have heta : pollLoop (flags m) = ((pollLoop (flags m)).1, false) := by
    rw [← ht]
  have helapsed := pollLoop_timeout_elapsed (flags m) (pollLoop (flags m)).1 heta
  have hw : timeoutWarningLogged (flags m) = true := by
    simp [timeoutWarningLogged, hz]
  obtain ⟨_, _, _, _, hwc⟩ :=
    loopFrom_get_block gains lnas flags (N - 1) 1 m h1 (by omega)
  rw [hw] at hwc
  exact ⟨helapsed, hwc, updatesOf_loopFrom gains lnas flags (N - 1) 1⟩

/-- Counterexample to C2 as stated: on the read trace that is constantly
true (a stale flag left true for the whole poll), the loop reaches its
iteration bound without observing the false-to-true transition, yet no
timeout warning is logged, because the post-loop check of line 472 tests the
flag's current value, not whether the loop confirmed. -/
theorem C2_counterexample :
    (pollLoop (fun _ => true)).2 = false ∧
    (pollLoop (fun _ => true)).1 = UpdateTimeout ∧
    timeoutWarningLogged (fun _ => true) = false := by
  have h := pollLoop_no_trans (fun _ => true) (by intro i; simp)
  rw [h]
  refine ⟨rfl, rfl, ?_⟩
  simp [timeoutWarningLogged, h, postReadIndex]

/-- Witness for C2 at a concrete instance: the device never signals (all
flag reads zero) during change 1 of a 2-change run; the warning event for
change 1 is in the trace at its block position. -/
theorem C2_witness :
    (controlLoop [40] [0] (fun _ _ => false) 2).get? 4 =
      some (Event.warnCheck 1 true) := by
  have hpoll : pollLoop (fun _ => false) = (UpdateTimeout, false) :=
    pollLoop_no_trans (fun _ => false) (by intro i; simp)
  have h := C2_timeout_nonfatal [40] [0] (fun _ _ => false) 2 1
    (by omega) (by omega) (by rw [hpoll]) rfl
  simpa using h.2.1

/-- Counterexample to C3 as stated: when every read of the flag returns
true (the device set the flag synchronously inside the update call, before
the poll loop was entered, and nothing clears it), the loop is entered with
the flag true, yet it does not break early (Confirmed): it runs to the
bound, because `prev_gain_reduction_changed` starts at -1 and is never 0. -/
theorem C3_counterexample :
    (fun _ => true : Nat → Bool) 0 = true ∧
    pollLoop (fun _ => true) = (UpdateTimeout, false) :=
  ⟨rfl, pollLoop_no_trans (fun _ => true) (by intro i; simp)⟩

/-- C3 (amended: a flag that is already true at loop entry and stays true is
never observed as Confirmed — the loop requires witnessing a false-to-true
transition — so it runs to its iteration bound; no timeout warning is
printed, however, because the post-loop check sees a nonzero flag): for
every read trace that is true at entry and stays true once true, the poll
loop returns `elapsed = UpdateTimeout` with no early break, and the timeout
warning of line 472 is not logged. -/
theorem C3_sync_flag_not_confirmed (f : Nat → Bool) (h0 : f 0 = true)
    (hmono : ∀ i, f i = true → f (i + 1) = true) :
    pollLoop f = (UpdateTimeout, false) ∧ timeoutWarningLogged f = false := by
  have hall := pollLoop_const_true_then_true f h0 hmono
  have hnt : ∀ i, ¬(f i = false ∧ f (i + 1) = true) := by
    intro i hi
    rw [hall i] at hi
    cases hi.1
  have hp := pollLoop_no_trans f hnt
  refine ⟨hp, ?_⟩
  simp [timeoutWarningLogged, hp, postReadIndex, hall]

/-- Witness for C3 (amended) at the constantly-true read trace. -/
theorem C3_witness :
    pollLoop (fun _ => true) = (UpdateTimeout, false) ∧
    timeoutWarningLogged (fun _ => true) = false :=
  C3_sync_flag_not_confirmed (fun _ => true) rfl (fun _ _ => rfl)

/-- C5: for all non-empty gain-reduction and LNA-state lists and every
change index n with 1 ≤ n < num_gain_changes, the pending parameters written
(lines 441-442) before update n are `gains[n % gains.length]` and
`lnas[n % lnas.length]` (selection is a pure function of the lists and n),
and the corresponding `setParams` step occurs in the control-loop trace. -/
theorem C5_sequencer_mod_selection (gains lnas : List Int)
    (flags : Nat → Nat → Bool) (N n : Nat) (hg : gains ≠ []) (hl : lnas ≠ [])
    (h1 : 1 ≤ n) (hN : n < N) :
    ∃ (hgi : n % gains.length < gains.length)
      (hli : n % lnas.length < lnas.length),
      selGain gains n = gains.get ⟨n % gains.length, hgi⟩ ∧
      selLNA lnas n = lnas.get ⟨n % lnas.length, hli⟩ ∧
      Event.setParams n (selGain gains n) (selLNA lnas n) ∈
        controlLoop gains lnas flags N := by
  have hgl : 0 < gains.length := List.length_pos.mpr hg
  have hll : 0 < lnas.length := List.length_pos.mpr hl
  refine ⟨Nat.mod_lt n hgl, Nat.mod_lt n hll, ?_, ?_, ?_⟩
  · exact List.getD_eq_get gains 0 (Nat.mod_lt n hgl)
  · exact List.getD_eq_get lnas 0 (Nat.mod_lt n hll)
  · obtain ⟨hs, _, _, _, _⟩ :=
      loopFrom_get_block gains lnas flags (N - 1) 1 n h1 (by omega)
    exact List.get?_mem hs

/-- Witness for C5 at the spec's concrete example: gains = [40, 20, 60],
lnas = [0, 1], n = 5 selects gain 60 (index 5 % 3 = 2) and LNA 1
(index 5 % 2 = 1). -/
theorem C5_witness :
    Event.setParams 5 60 1 ∈
      controlLoop [40, 20, 60] [0, 1] (fun _ _ => false) 7 := by
  obtain ⟨hgi, hli, hG, hL, hmem⟩ :=
    C5_sequencer_mod_selection [40, 20, 60] [0, 1] (fun _ _ => false) 7 5
      (by simp) (by simp) (by omega) (by omega)
  have e1 : selGain [40, 20, 60] 5 = 60 := rfl
  have e2 : selLNA [0, 1] 5 = 1 := rfl
  rw [e1, e2] at hmem
  exact hmem

/-- The fields of `sdrplay_api_StreamCbParamsT` the callbacks read:
`firstSampleNum` (unsigned int, < 2^32) and `grChanged` (unsigned int). -/
structure StreamCbParams where
  firstSampleNum : Nat
  grChanged : Nat
  deriving DecidableEq

/-- `RXContext` of single_tuner_gain_changes.c lines 30-35 (the `verbose`
field only selects extra logging and is dropped). -/
structure RXContext where
  total_samples : Nat
  next_sample_num : Nat
  gain_reduction_changed : Nat
  deriving DecidableEq

/-- Initialization of `rx_context` at lines 415-420. -/
def initRXContext : RXContext :=
  { total_samples := 0, next_sample_num := 4294967295,
    gain_reduction_changed := 0 }

/-- `rx_callback` of single_tuner_gain_changes.c lines 536-558: OR the
delivered `grChanged` into the shared flag, log a sequence-jump warning iff
the stored next-expected index is not the sentinel 0xffffffff and the
delivered first-sample index differs from it, then store
`firstSampleNum + numSamples` (unsigned 32-bit wraparound) as the new
next-expected index and add `numSamples` to the running total.  The second
component of the result is true iff the jump warning was printed.
`_reset` models the `reset` argument, only ever printed. -/
def rx_callback (ctx : RXContext) (params : StreamCbParams)
    (numSamples _reset : Nat) : RXContext × Bool :=
  ({ total_samples := ctx.total_samples + numSamples,
     next_sample_num := (params.firstSampleNum + numSamples) % 4294967296,
     gain_reduction_changed :=
       ctx.gain_reduction_changed ||| params.grChanged },
   ctx.next_sample_num ≠ 4294967295 ∧
     params.firstSampleNum ≠ ctx.next_sample_num)

/-- A whole burst of sample deliveries between two flag resets of the
control loop: each list entry is (params, numSamples, reset). -/
def runCallbacks (ctx : RXContext) (ds : List (StreamCbParams × Nat × Nat)) :
    RXContext :=
  ds.foldl (fun c d => (rx_callback c d.1 d.2.1 d.2.2).1) ctx

theorem le_lor_left (a b : Nat) : a ≤ a ||| b :=
  Nat.le_of_testBit (by intro i h; simp [Nat.testBit_lor, h])

/-- C7: on every sample-delivery callback a sequence-jump warning is logged
iff a previous expected index has been recorded (the stored value is not the
sentinel 0xffffffff) and the delivered first-sample index differs from it;
after every callback the expected index becomes
`firstSampleNum + numSamples` with 32-bit unsigned wraparound.  At the
spec's concrete sequences: deliveries (0,1000) then (1000,500) from the
initial context log no warning, while (0,1000) then (2000,1000) log a
warning on the second delivery. -/
theorem C7_sequence_jump_detection :
    (∀ ctx params numSamples r,
      ((rx_callback ctx params numSamples r).2 = true ↔
        ctx.next_sample_num ≠ 4294967295 ∧
          params.firstSampleNum ≠ ctx.next_sample_num) ∧
      (rx_callback ctx params numSamples r).1.next_sample_num =
        (params.firstSampleNum + numSamples) % 4294967296) ∧
    ((rx_callback initRXContext ⟨0, 0⟩ 1000 0).2 = false ∧
     (rx_callback (rx_callback initRXContext ⟨0, 0⟩ 1000 0).1
        ⟨1000, 0⟩ 500 0).2 = false) ∧
    (rx_callback (rx_callback initRXContext ⟨0, 0⟩ 1000 0).1
        ⟨2000, 0⟩ 1000 0).2 = true := by
  refine ⟨fun ctx params numSamples r => ⟨?_, rfl⟩, by decide, by decide⟩
  simp [rx_callback]

/-- C8: the sample-delivery callback never clears the NotificationFlag: the
new flag value is the bitwise OR of the old value and the delivered
`grChanged`, so a nonzero flag stays nonzero across one callback and across
any burst of callbacks (the flag is monotone between two control-loop
resets). -/
theorem C8_flag_monotone :
    (∀ ctx params numSamples r,
      (rx_callback ctx params numSamples r).1.gain_reduction_changed =
        ctx.gain_reduction_changed ||| params.grChanged) ∧
    (∀ ctx params numSamples r, ctx.gain_reduction_changed ≠ 0 →
      (rx_callback ctx params numSamples r).1.gain_reduction_changed ≠ 0) ∧
    (∀ ctx ds, ctx.gain_reduction_changed ≠ 0 →
      (runCallbacks ctx ds).gain_reduction_changed ≠ 0) := by
  have hstep : ∀ (ctx : RXContext) params numSamples r,
      ctx.gain_reduction_changed ≠ 0 →
      (rx_callback ctx params numSamples r).1.gain_reduction_changed ≠ 0 := by
    intro ctx params numSamples r h
    have hle := le_lor_left ctx.gain_reduction_changed params.grChanged
    show ctx.gain_reduction_changed ||| params.grChanged ≠ 0
    omega
  refine ⟨fun _ _ _ _ => rfl, hstep, ?_⟩
  intro ctx ds
  induction ds generalizing ctx with
  | nil => intro h; exact h
  | cons d t ih =>
    intro h
    exact ih (rx_callback ctx d.1 d.2.1 d.2.2).1 (hstep ctx d.1 d.2.1 d.2.2 h)

/-- Witness for C8: a context whose flag is already set keeps a nonzero
flag across a burst of two deliveries that do not signal a gain change. -/
theorem C8_witness :
    (runCallbacks ⟨0, 4294967295, 1⟩
      [(⟨0, 0⟩, 1000, 0), (⟨1000, 0⟩, 1000, 0)]).gain_reduction_changed ≠
      0 :=
  C8_flag_monotone.2.2 ⟨0, 4294967295, 1⟩
    [(⟨0, 0⟩, 1000, 0), (⟨1000, 0⟩, 1000, 0)] (by decide)

/-- `RXContextRecord` of single_tuner_recorder.c lines 28-36 (the two
`struct timeval` timestamp fields and the output file descriptor carry no
verified state and are dropped; `output_fd > 0` is modelled where needed). -/
structure RXContextRecord where
  total_samples : Nat
  next_sample_num : Nat
  imin : Int
  imax : Int
  qmin : Int
  qmax : Int
  deriving DecidableEq

/-- The dropped-sample count computed at lines 549-553 of
single_tuner_recorder.c, with C unsigned-int wraparound made explicit:
in the else branch `firstSampleNum - next_sample_num` is evaluated
modulo 2^32 before being subtracted from UINT_MAX. -/
def dropped_samples (next first : Nat) : Nat :=
  if next < first then first - next
  else (4294967295 - (first + 4294967296 - next) % 4294967296 + 1) %
    4294967296

/-- `rx_callback_record` of single_tuner_recorder.c lines 533-592, without
the wall-clock timestamping and the file write (the write's buffer and byte
count are modelled by `samplesBuffer` and `writeByteCount` below): add
`numSamples` to the total, log a drop warning (second component
`some dropped`) iff the stored next-expected index is not the sentinel
0xffffffff and the delivered first index differs, store the wrapped
next-expected index, and fold the per-buffer I/Q minima/maxima (starting
from SHRT_MAX / SHRT_MIN as lines 558-561) into the running ones. -/
def rx_callback_record (ctx : RXContextRecord) (xi xq : Nat → Int)
    (params : StreamCbParams) (numSamples : Nat) :
    RXContextRecord × Option Nat :=
  ({ total_samples := ctx.total_samples + numSamples
     next_sample_num := (params.firstSampleNum + numSamples) % 4294967296
     imin := min ctx.imin
       ((List.range numSamples).foldl (fun m i => min m (xi i)) 32767)
     imax := max ctx.imax
       ((List.range numSamples).foldl (fun m i => max m (xi i)) (-32768))
     qmin := min ctx.qmin
       ((List.range numSamples).foldl (fun m i => min m (xq i)) 32767)
     qmax := max ctx.qmax
       ((List.range numSamples).foldl (fun m i => max m (xq i)) (-32768)) },
   if ctx.next_sample_num ≠ 4294967295 ∧
       params.firstSampleNum ≠ ctx.next_sample_num
   then some (dropped_samples ctx.next_sample_num params.firstSampleNum)
   else none)

/-- C9: jump/drop detection is silently suppressed whenever the stored
next-expected index equals the sentinel 0xffffffff: in both callbacks no
warning is logged for any delivery arriving in such a state — including
after a legitimate delivery whose `firstSampleNum + numSamples` wrapped to
exactly 0xffffffff, which makes the following delivery's check a no-op. -/
theorem C9_sentinel_suppression :
    (∀ ctx params numSamples r, ctx.next_sample_num = 4294967295 →
      (rx_callback ctx params numSamples r).2 = false) ∧
    (∀ ctx xi xq params numSamples, ctx.next_sample_num = 4294967295 →
      (rx_callback_record ctx xi xq params numSamples).2 = none) ∧
    (∀ ctx p1 n1 r1 p2 n2 r2,
      (p1.firstSampleNum + n1) % 4294967296 = 4294967295 →
      (rx_callback (rx_callback ctx p1 n1 r1).1 p2 n2 r2).2 = false) := by
  refine ⟨?_, ?_, ?_⟩
  · intro ctx params numSamples r h
    simp [rx_callback, h]
  · intro ctx xi xq params numSamples h
    simp [rx_callback_record, h]
  · intro ctx p1 n1 r1 p2 n2 r2 h
    simp [rx_callback, h]

/-- Witness for C9: a first delivery of 1000 samples starting at sample
4294966295 wraps the next-expected index to exactly 0xffffffff, and the
following delivery (a blatant jump back to sample 0) logs no warning. -/
theorem C9_witness :
    (rx_callback (rx_callback initRXContext ⟨4294966295, 0⟩ 1000 0).1
      ⟨0, 0⟩ 500 0).2 = false :=
  C9_sentinel_suppression.2.2 initRXContext ⟨4294966295, 0⟩ 1000 0
    ⟨0, 0⟩ 500 0 (by decide)

/-- `sizeof(short)` on the platforms this code targets. -/
def sizeofShort : Nat := 2

/-- The indices of the fixed 4096-element local buffer `short samples[4096]`
written by the two interleaving loops of single_tuner_recorder.c lines
578-583: first `samples[2*i] = xi[i]` for i < numSamples, then
`samples[2*i+1] = xq[i]` for i < numSamples. -/
def interleaveWriteIndices (numSamples : Nat) : List Nat :=
  (List.range numSamples).map (fun i => 2 * i) ++
    (List.range numSamples).map (fun i => 2 * i + 1)

/-- A single array store, the buffer modelled as a function from index to
content. -/
def store (buf : Nat → Int) (idx : Nat) (v : Int) : Nat → Int :=
  fun j => if j = idx then v else buf j

/-- Contents of `samples` after the two interleaving loops of lines 578-583,
starting from the (uninitialized) buffer `buf0`. -/
def samplesBuffer (xi xq : Nat → Int) (numSamples : Nat)
    (buf0 : Nat → Int) : Nat → Int :=
  (List.range numSamples).foldl (fun b i => store b (2 * i + 1) (xq i))
    ((List.range numSamples).foldl (fun b i => store b (2 * i) (xi i)) buf0)

/-- `size_t count = numSamples * 2 * sizeof(short)` of line 584: the number
of bytes passed to `write()` at line 585. -/
def writeByteCount (numSamples : Nat) : Nat :=
  numSamples * 2 * sizeofShort

theorem foldl_store_even (xi : Nat → Int) :
    ∀ n buf0 i, i < n →
      ((List.range n).foldl (fun b j => store b (2 * j) (xi j)) buf0)
        (2 * i) = xi i := by
  intro n
  induction n with
  | zero => intro buf0 i h; omega
  | succ n ih =>
    intro buf0 i h
    rw [List.range_succ, List.foldl_append]
    by_cases hi : i = n
    · subst hi
      simp [store]
    · have hlt : i < n := by omega
      simp only [List.foldl_cons, List.foldl_nil]
      rw [store]
      have hne : 2 * i ≠ 2 * n := by omega
      simp only [hne, if_false]
      exact ih buf0 i hlt

theorem foldl_store_odd_at_even (xq : Nat → Int) :
    ∀ n buf i,
      ((List.range n).foldl (fun b j => store b (2 * j + 1) (xq j)) buf)
        (2 * i) = buf (2 * i) := by
  intro n
  induction n with
  | zero => intro buf i; rfl
  | succ n ih =>
    intro buf i
    rw [List.range_succ, List.foldl_append]
    simp only [List.foldl_cons, List.foldl_nil]
    rw [store]
    have hne : 2 * i ≠ 2 * n + 1 := by omega
    simp only [hne, if_false]
    exact ih buf i

theorem foldl_store_odd (xq : Nat → Int) :
    ∀ n buf i, i < n →
      ((List.range n).foldl (fun b j => store b (2 * j + 1) (xq j)) buf)
        (2 * i + 1) = xq i := by
  intro n
  induction n with
  | zero => intro buf i h; omega
  | succ n ih =>
    intro buf i h
    rw [List.range_succ, List.foldl_append]
    by_cases hi : i = n
    · subst hi
      simp [store]
    · have hlt : i < n := by omega
      simp only [List.foldl_cons, List.foldl_nil]
      rw [store]
      have hne : 2 * i + 1 ≠ 2 * n + 1 := by omega
      simp only [hne, if_false]
      exact ih buf i hlt

/-- C10: the interleaving loops write I and Q at indices 2*i and 2*i+1 of a
4096-element buffer for i < numSamples; under numSamples ≤ 2048 every
accessed index is < 4096 (in bounds), the buffer afterwards holds xi i at
2*i and xq i at 2*i+1, and exactly numSamples * 2 * sizeof(short) =
4 * numSamples bytes are passed to the file write. -/
theorem C10_interleave_in_bounds (numSamples : Nat)
    (h : numSamples ≤ 2048) :
    (∀ a ∈ interleaveWriteIndices numSamples, a < 4096) ∧
    writeByteCount numSamples = 4 * numSamples ∧
    (∀ xi xq buf0 i, i < numSamples →
      samplesBuffer xi xq numSamples buf0 (2 * i) = xi i ∧
      samplesBuffer xi xq numSamples buf0 (2 * i + 1) = xq i) := by
  refine ⟨?_, ?_, ?_⟩
  · intro a ha
    rw [interleaveWriteIndices, List.mem_append] at ha
    rcases ha with ha | ha <;>
      · rw [List.mem_map] at ha
        obtain ⟨i, hi, rfl⟩ := ha
        rw [List.mem_range] at hi
        omega
  · rw [writeByteCount, sizeofShort]
    ring
  · intro xi xq buf0 i hi
    constructor
    · rw [samplesBuffer, foldl_store_odd_at_even, foldl_store_even xi _ _ _ hi]
    · rw [samplesBuffer, foldl_store_odd xq _ _ _ hi]

/-- Witness for C10 at numSamples = 3 with concrete sample streams: bounds
hold, the byte count is 12, and the buffer holds the Q value of sample 2 at
index 5. -/
theorem C10_witness :
    ((interleaveWriteIndices 3).all fun a => a < 4096) = true ∧
    writeByteCount 3 = 12 ∧
    samplesBuffer (fun i => (i : Int)) (fun i => -(i : Int)) 3 (fun _ => 0)
      5 = -2 := by
  obtain ⟨h1, h2, h3⟩ := C10_interleave_in_bounds 3 (by omega)
  refine ⟨?_, by rw [h2], ?_⟩
  · rw [List.all_eq_true]
    intro a ha
    simpa using h1 a ha
  · have := (h3 (fun i => (i : Int)) (fun i => -(i : Int)) (fun _ => 0) 2
      (by omega)).2
    simpa using this

/-- Tuner selector constant `sdrplay_api_Tuner_A` of the vendor API. -/
def sdrplay_api_Tuner_A : Nat := 1

/-- Hardware version tag `SDRPLAY_RSPduo_ID` of the vendor API. -/
def SDRPLAY_RSPduo_ID : Nat := 3

/-- RSPduo mode constant `sdrplay_api_RspDuoMode_Unknown`. -/
def sdrplay_api_RspDuoMode_Unknown : Nat := 0

/-- RSPduo mode constant `sdrplay_api_RspDuoMode_Single_Tuner`. -/
def sdrplay_api_RspDuoMode_Single_Tuner : Nat := 1

/-- The configuration values `main` derived from the command line and wrote
into the device parameters at lines 291-305 of single_tuner_gain_changes.c
(`gRdB0` and `LNAstate0` are `gRdBs[0]` and `LNAstates[0]`); the two
frequencies and the sample rate are C doubles, modelled as rationals. -/
structure CliConfig where
  rsp_sample_rate : ℚ
  decimation : Int
  if_frequency : Int
  if_bandwidth : Int
  gRdB0 : Int
  LNAstate0 : Int
  DCenable : Int
  IQenable : Int
  dcCal : Int
  speedUp : Int
  trackTime : Int
  refreshRateTime : Int
  frequency : ℚ
  deriving DecidableEq

/-- The device/parameter fields read back after the no-callback
`sdrplay_api_Init` quick check, as compared at lines 322-397. -/
structure ObservedState where
  tuner : Nat
  hwVer : Nat
  rspDuoMode : Nat
  rspDuoSampleFreq : ℚ
  fsHz : ℚ
  decimationEnable : Bool
  decimationFactor : Int
  ifType : Int
  bwType : Int
  gRdB : Int
  LNAstate : Int
  DCenable : Int
  IQenable : Int
  dcCal : Int
  speedUp : Int
  trackTime : Int
  refreshRateTime : Int
  rfHz : ℚ
  deriving DecidableEq

/-- The readback verification of lines 322-397: `init_ok` stays 1 iff every
comparison passes (each failed comparison only logs and clears `init_ok`,
so the outcome is the conjunction of all the checks, in code order). -/
def checkInit (cli : CliConfig) (obs : ObservedState) : Bool :=
  decide (obs.tuner = sdrplay_api_Tuner_A) &&
  (if obs.hwVer = SDRPLAY_RSPduo_ID
   then decide (obs.rspDuoMode = sdrplay_api_RspDuoMode_Single_Tuner)
   else decide (obs.rspDuoMode = sdrplay_api_RspDuoMode_Unknown)) &&
  decide (obs.rspDuoSampleFreq = 0) &&
  decide (obs.fsHz = cli.rsp_sample_rate) &&
  decide (obs.decimationEnable = decide (cli.decimation > 1)) &&
  decide (obs.decimationFactor = cli.decimation) &&
  decide (obs.ifType = cli.if_frequency) &&
  decide (obs.bwType = cli.if_bandwidth) &&
  decide (obs.gRdB = cli.gRdB0) &&
  decide (obs.LNAstate = cli.LNAstate0) &&
  decide (obs.DCenable = cli.DCenable) &&
  decide (obs.IQenable = cli.IQenable) &&
  decide (obs.dcCal = cli.dcCal) &&
  decide (obs.speedUp = cli.speedUp) &&
  decide (obs.trackTime = cli.trackTime) &&
  decide (obs.refreshRateTime = cli.refreshRateTime) &&
  decide (obs.rfHz = cli.frequency)

/-- What `main` does right after the readback verification: `rejected`
models lines 399-404 (`sdrplay_api_Uninit`, `sdrplay_api_ReleaseDevice`,
`sdrplay_api_Close`, `exit(1)` — teardown and exit status 1, the streaming
`sdrplay_api_Init` with the real callbacks at line 428 never runs);
`streaming` models falling through to that second `Init`. -/
inductive InitOutcome where
  | rejected
  | streaming
  deriving DecidableEq

/-- Lines 399-404: the branch on `init_ok`. -/
def quickCheckOutcome (cli : CliConfig) (obs : ObservedState) : InitOutcome :=
  if checkInit cli obs then InitOutcome.streaming else InitOutcome.rejected

/-- C6: if any one of the compared fields differs from its configured value
after the quick-check initialization (with the tuner/mode/sample-freq fields
compared against their expected constants, the mode depending on the
hardware variant), the program tears down and exits with status 1 without
ever starting streaming with the real callbacks. -/
theorem C6_readback_verification (cli : CliConfig) (obs : ObservedState)
    (h : obs.tuner ≠ sdrplay_api_Tuner_A ∨
      (obs.hwVer = SDRPLAY_RSPduo_ID ∧
        obs.rspDuoMode ≠ sdrplay_api_RspDuoMode_Single_Tuner) ∨
      (obs.hwVer ≠ SDRPLAY_RSPduo_ID ∧
        obs.rspDuoMode ≠ sdrplay_api_RspDuoMode_Unknown) ∨
      obs.rspDuoSampleFreq ≠ 0 ∨
      obs.fsHz ≠ cli.rsp_sample_rate ∨
      obs.decimationEnable ≠ decide (cli.decimation > 1) ∨
      obs.decimationFactor ≠ cli.decimation ∨
      obs.ifType ≠ cli.if_frequency ∨
      obs.bwType ≠ cli.if_bandwidth ∨
      obs.gRdB ≠ cli.gRdB0 ∨
      obs.LNAstate ≠ cli.LNAstate0 ∨
      obs.DCenable ≠ cli.DCenable ∨
      obs.IQenable ≠ cli.IQenable ∨
      obs.dcCal ≠ cli.dcCal ∨
      obs.speedUp ≠ cli.speedUp ∨
      obs.trackTime ≠ cli.trackTime ∨
      obs.refreshRateTime ≠ cli.refreshRateTime ∨
      obs.rfHz ≠ cli.frequency) :
    quickCheckOutcome cli obs = InitOutcome.rejected := by
  rw [quickCheckOutcome]
  have hfalse : checkInit cli obs = false := by
    rcases h with h|⟨h1,h2⟩|⟨h1,h2⟩|h|h|h|h|h|h|h|h|h|h|h|h|h|h|h <;>
      simp_all [checkInit]
  rw [hfalse]
  rfl

/-- A command-line configuration matching the program defaults with
frequency 100 MHz. -/
def cliExample : CliConfig :=
  ⟨2000000, 1, 0, 0, 40, 0, 1, 1, 3, 0, 1, 2048, 100000000⟩

/-- A post-initialization state in which the hardware silently clamped the
center frequency to 99999999 Hz but left everything else as configured. -/
def obsClamped : ObservedState :=
  ⟨1, 2, 0, 0, 2000000, false, 1, 0, 0, 40, 0, 1, 1, 3, 0, 1, 2048,
   99999999⟩

/-- Witness for C6: the clamped-frequency state is rejected, so streaming
never starts. -/
theorem C6_witness :
    quickCheckOutcome cliExample obsClamped = InitOutcome.rejected :=
  C6_readback_verification cliExample obsClamped (by decide)
